import Mathlib

/-!
Shallow embedding of the transactional business-rule layer of a
single-user library management system (source: app.py), together with
theorems settling the specification claims about it.

Modelling conventions:
  * The relational store is a record of lists of rows (`DB`); each
    Domain Operation is a function `DB → ... → Outcome × DB` where the
    returned `DB` is the committed state (an exception inside the
    transaction rolls the state back to the input, mirroring
    `with conn:`).
  * `datetime.now()` is a pair (day, seconds-of-day); `strptime` of a
    stored date string yields midnight of that day; Python datetime
    comparison is lexicographic.
  * Monetary amounts are `Rat` (exact decimals).
  * `bcrypt.checkpw` against the reference hash is external input; a
    presented candidate carries the Boolean result of that check.
  * The Python expression `None > 0` raises TypeError; this is embedded
    as an explicit `Outcome.fault`, which aborts the transaction and
    restores the input state.
-/

inductive Outcome where
  | ok : Outcome
  | inputError : String → Outcome
  | fault : String → Outcome
deriving DecidableEq, Repr

structure DateTime where
  day : Nat
  tod : Nat
deriving DecidableEq, Repr

/-- Python datetime comparison, lexicographic on (day, time-of-day). -/
def dtLtb (a b : DateTime) : Bool :=
  a.day < b.day || (a.day == b.day && a.tod < b.tod)

structure MemberRow where
  memberId : Nat
  status : String
deriving DecidableEq, Repr

structure FineRow where
  memberId : Nat
  totalFine : Rat
deriving DecidableEq, Repr

structure ItemRow where
  itemId : Nat
  title : String
  borrowingStatus : String
  referenceOnly : Bool
deriving DecidableEq, Repr

structure BorrowingRow where
  borrowingId : Nat
  memberId : Nat
  itemId : Nat
  borrowDate : Nat
  dueDate : Nat
  returnDate : Option Nat
  fineAmount : Option Rat
deriving DecidableEq, Repr

structure EventRow where
  eventId : Nat
  name : String
  day : Nat
  maxCapacity : Int
  currentAttendees : Int
deriving DecidableEq, Repr

structure EventMemberRow where
  eventId : Nat
  memberId : Nat
  regDate : Nat
deriving DecidableEq, Repr

structure DB where
  members : List MemberRow
  fines : List FineRow
  items : List ItemRow
  borrowings : List BorrowingRow
  events : List EventRow
  eventMembers : List EventMemberRow
  nextBorrowingId : Nat
deriving DecidableEq, Repr

/-- Models `SELECT ... FROM Member WHERE MemberID = ?` with `fetchone()`. -/
def findMember (db : DB) (member_id : Nat) : Option MemberRow :=
  db.members.find? (fun r => r.memberId == member_id)

/-- Models `SELECT TotalFine FROM Fine WHERE MemberID = ?` with `fetchone()`. -/
def findFine (db : DB) (member_id : Nat) : Option FineRow :=
  db.fines.find? (fun r => r.memberId == member_id)

/-- Models `SELECT ... FROM Item WHERE ItemID = ?` with `fetchone()`. -/
def findItem (db : DB) (item_id : Nat) : Option ItemRow :=
  db.items.find? (fun r => r.itemId == item_id)

/-- Models `SELECT ... FROM Event WHERE EventID = ?` with `fetchone()`. -/
def findEvent (db : DB) (event_id : Nat) : Option EventRow :=
  db.events.find? (fun r => r.eventId == event_id)

/-- Models `SELECT COUNT(*) FROM Event_Member WHERE EventID = ? AND MemberID = ?` tested `> 0`. -/
def isRegistered (db : DB) (event_id member_id : Nat) : Bool :=
  db.eventMembers.any (fun r => r.eventId == event_id && r.memberId == member_id)

/-- The Python test `fine_record and fine_record[0] > 0` in borrow_item. -/
def hasBlockingFine (db : DB) (member_id : Nat) : Bool :=
  match findFine db member_id with
  | some f => decide (0 < f.totalFine)
  | none => false

/-- Number of open (ReturnDate IS NULL) Borrowing rows for an item. -/
def openBorrowings (db : DB) (item_id : Nat) : Nat :=
  (db.borrowings.filter (fun b => b.itemId == item_id && b.returnDate == none)).length

/-- CurrentAttendees of the event with the given id, when it exists. -/
def attendeesOf (db : DB) (event_id : Nat) : Option Int :=
  (findEvent db event_id).map (fun ev => ev.currentAttendees)

/-- borrow_item: the six ordered precondition checks, then
`INSERT INTO Borrowing (MemberID, ItemID, BorrowDate, DueDate)` with
due date = borrow date + 7 days.  The insert does not supply FineAmount
or ReturnDate, so both are stored NULL (the schema bootstrap is external
to the source; SQLite columns without a DEFAULT store NULL).  No write
to the Item table occurs on any path. -/
def borrow_item (db : DB) (now : DateTime) (member_id item_id : Nat) : Outcome × DB :=
  match findMember db member_id with
  | none => (.inputError "Member not found", db)
  | some mem =>
    if mem.status != "Active" then
      (.inputError "Member is inactive and cannot borrow items", db)
    else if hasBlockingFine db member_id then
      (.inputError "Member has an outstanding fine and cannot borrow items until it is paid", db)
    else
      match findItem db item_id with
      | none => (.inputError "Item not found", db)
      | some it =>
        if it.referenceOnly then
          (.inputError "Item is reference-only and cannot be borrowed", db)
        else if it.borrowingStatus == "Borrowed" then
          (.inputError "Item is already borrowed by another member", db)
        else
          let row : BorrowingRow :=
            { borrowingId := db.nextBorrowingId, memberId := member_id, itemId := item_id,
              borrowDate := now.day, dueDate := now.day + 7,
              returnDate := none, fineAmount := none }
          (.ok, { db with borrowings := db.borrowings ++ [row],
                          nextBorrowingId := db.nextBorrowingId + 1 })

/-- return_item: `UPDATE Borrowing SET ReturnDate = ? WHERE BorrowingID = ?
AND ReturnDate IS NULL`; on rowcount 0 an input error.  Otherwise the row
is re-read and its FineAmount compared with `> 0`: a NULL FineAmount makes
that Python comparison raise TypeError, aborting the transaction (the
state rolls back to the input `db`).  A positive fine is added to the
the Fine row of the member (inserted when absent). -/
def return_item (db : DB) (now : DateTime) (borrowing_id : Nat) : Outcome × DB :=
  let matched := db.borrowings.filter
    (fun b => b.borrowingId == borrowing_id && b.returnDate == none)
  if 0 < matched.length then
    let db1 : DB :=
      { db with borrowings := db.borrowings.map (fun b =>
          if b.borrowingId == borrowing_id && b.returnDate == none then
            { b with returnDate := some now.day } else b) }
    match db1.borrowings.find? (fun b => b.borrowingId == borrowing_id) with
    | none => (.ok, db1)
    | some b =>
      match b.fineAmount with
      | none => (.fault "TypeError: comparison of NoneType and int", db)
      | some f =>
        if 0 < f then
          match findFine db1 b.memberId with
          | some _ =>
            (.ok, { db1 with fines := db1.fines.map (fun fr =>
                      if fr.memberId == b.memberId then
                        { fr with totalFine := fr.totalFine + f } else fr) })
          | none =>
            (.ok, { db1 with fines := db1.fines ++ [{ memberId := b.memberId, totalFine := f }] })
        else (.ok, db1)
  else (.inputError "Borrowing ID not found or item already returned", db)

/-- register_event: ordered checks (event exists, capacity, date, member
exists, member active, not already registered), then insert an
Event_Member row and `UPDATE Event SET CurrentAttendees = CurrentAttendees + 1`. -/
def register_event (db : DB) (now : DateTime) (member_id event_id : Nat) : Outcome × DB :=
  match findEvent db event_id with
  | none => (.inputError "Event not found", db)
  | some ev =>
    if ev.maxCapacity ≤ ev.currentAttendees then
      (.inputError "Event is already at full capacity", db)
    else if dtLtb { day := ev.day, tod := 0 } now then
      (.inputError "Cannot register for event as it has already occurred", db)
    else
      match findMember db member_id with
      | none => (.inputError "Member not found", db)
      | some mem =>
        if mem.status != "Active" then
          (.inputError "Member is inactive and cannot register for events", db)
        else if isRegistered db event_id member_id then
          (.inputError "You are already registered for event", db)
        else
          (.ok, { db with
                    eventMembers := db.eventMembers ++
                      [{ eventId := event_id, memberId := member_id, regDate := now.day }],
                    events := db.events.map (fun e =>
                      if e.eventId == event_id then
                        { e with currentAttendees := e.currentAttendees + 1 } else e) })

/-- cancel_event_registration: checks (event exists, date, member is
registered), then `DELETE FROM Event_Member ...` and, when rowcount > 0,
`UPDATE Event SET CurrentAttendees = CurrentAttendees - 1`. -/
def cancel_event_registration (db : DB) (now : DateTime) (member_id event_id : Nat) : Outcome × DB :=
  match findEvent db event_id with
  | none => (.inputError "Event not found", db)
  | some ev =>
    if dtLtb { day := ev.day, tod := 0 } now then
      (.inputError "Cannot cancel registration for event as it has already occurred", db)
    else if !(isRegistered db event_id member_id) then
      (.inputError "You are not registered for event", db)
    else
      let remaining := db.eventMembers.filter
        (fun r => !(r.eventId == event_id && r.memberId == member_id))
      if remaining.length < db.eventMembers.length then
        (.ok, { db with eventMembers := remaining,
                        events := db.events.map (fun e =>
                          if e.eventId == event_id then
                            { e with currentAttendees := e.currentAttendees - 1 } else e) })
      else (.inputError "Failed to cancel registration", db)

/-- The admin-code prompt inside pay_fine: an explicit cancel, or a
candidate code whose Boolean is the external bcrypt check result. -/
inductive AdminCodeInput where
  | cancel : AdminCodeInput
  | code : Bool → AdminCodeInput
deriving DecidableEq, Repr

inductive PayResult where
  | noFines : PayResult
  | cancelled : PayResult
  | invalidCode : PayResult
  | paid : Rat → PayResult
deriving DecidableEq, Repr

/-- pay_fine: no row or balance <= 0 is a no-op success; otherwise the
caller-resolved confirmation and admin authentication gate the single
write `UPDATE Fine SET TotalFine = 0 WHERE MemberID = ?`, and the prior
balance is reported as the amount paid. -/
def pay_fine (db : DB) (member_id : Nat) (confirmYes : Bool)
    (adminCode : AdminCodeInput) : PayResult × DB :=
  match findFine db member_id with
  | none => (.noFines, db)
  | some f =>
    if f.totalFine ≤ 0 then (.noFines, db)
    else if !confirmYes then (.cancelled, db)
    else
      match adminCode with
      | .cancel => (.cancelled, db)
      | .code isMatch =>
        if !isMatch then (.invalidCode, db)
        else (.paid f.totalFine,
              { db with fines := db.fines.map (fun fr =>
                  if fr.memberId == member_id then
                    { fr with totalFine := 0 } else fr) })

/-- One candidate presented to admin_login: an explicit cancel signal,
or a secret whose Boolean is the external bcrypt check result. -/
inductive AdminInput where
  | cancel : AdminInput
  | candidate : Bool → AdminInput
deriving DecidableEq, Repr

/-- The 3-attempt loop of admin_login: attempts exhausted gives false;
an empty input source means the loop is blocked waiting for input
(`none`); cancel returns false at once; a matching candidate returns
true; a wrong candidate consumes one attempt. -/
def adminLoginLoop : Nat → List AdminInput → Option Bool
  | 0, _ => some false
  | Nat.succ _, [] => none
  | Nat.succ _, AdminInput.cancel :: _ => some false
  | Nat.succ n, AdminInput.candidate isMatch :: rest =>
    if isMatch then some true else adminLoginLoop n rest

/-- admin_login with its hard-coded 3 attempts. -/
def admin_login (inputs : List AdminInput) : Option Bool :=
  adminLoginLoop 3 inputs

/-- Folding register_event over a sequence of (now, member, event) requests. -/
def runRegistrations (db : DB) : List (DateTime × Nat × Nat) → DB
  | [] => db
  | (now, m, e) :: rest => runRegistrations (register_event db now m e).2 rest

/-- Claim-side predicate: the member id is unknown. -/
def memberUnknown (db : DB) (member_id : Nat) : Bool :=
  (findMember db member_id).isNone

/-- Claim-side predicate: the member exists and is not Active. -/
def memberInactive (db : DB) (member_id : Nat) : Bool :=
  match findMember db member_id with
  | some mem => mem.status != "Active"
  | none => false

/-- Claim-side predicate: the item id is unknown. -/
def itemUnknown (db : DB) (item_id : Nat) : Bool :=
  (findItem db item_id).isNone

/-- Claim-side predicate: the item exists and is reference-only. -/
def itemReferenceOnly (db : DB) (item_id : Nat) : Bool :=
  match findItem db item_id with
  | some it => it.referenceOnly
  | none => false

/-- The borrowing-status flag stored on the Item row is Borrowed. -/
def itemFlagBorrowed (db : DB) (item_id : Nat) : Bool :=
  match findItem db item_id with
  | some it => it.borrowingStatus == "Borrowed"
  | none => false

/-- The item has at least one open Borrowing row (the condition the
specification names; the source reads the stored flag instead). -/
def itemHasOpenBorrowing (db : DB) (item_id : Nat) : Bool :=
  db.borrowings.any (fun b => b.itemId == item_id && b.returnDate == none)

/-- Events have pairwise-distinct ids (the EventID primary key). -/
def eventIdsNodup (db : DB) : Prop :=
  db.events.Pairwise (fun a b => a.eventId ≠ b.eventId)

/-- Every event is within capacity. -/
def eventsCapOk (db : DB) : Prop :=
  ∀ ev ∈ db.events, ev.currentAttendees ≤ ev.maxCapacity

/-- Two Active members and one available, non-reference item. -/
def dbTwoMembers : DB :=
  { members := [{ memberId := 1, status := "Active" }, { memberId := 2, status := "Active" }],
    fines := [], items := [{ itemId := 10, title := "Dune", borrowingStatus := "Available",
                             referenceOnly := false }],
    borrowings := [], events := [], eventMembers := [], nextBorrowingId := 7 }

/-- One Active member already holding an open borrowing of item 10
while the Item row still reads Available (the drift the source never
reconciles, since borrow_item writes no Item row). -/
def dbFlagDrift : DB :=
  { members := [{ memberId := 1, status := "Active" }],
    fines := [],
    items := [{ itemId := 10, title := "Dune", borrowingStatus := "Available",
                referenceOnly := false }],
    borrowings := [{ borrowingId := 1, memberId := 2, itemId := 10, borrowDate := 90,
                     dueDate := 97, returnDate := none, fineAmount := none }],
    events := [], eventMembers := [], nextBorrowingId := 2 }

/-- A single fully returned borrowing (ReturnDate and FineAmount set). -/
def dbClosedBorrow : DB :=
  { members := [{ memberId := 1, status := "Active" }],
    fines := [{ memberId := 1, totalFine := 3 }],
    items := [{ itemId := 10, title := "Dune", borrowingStatus := "Available",
                referenceOnly := false }],
    borrowings := [{ borrowingId := 5, memberId := 1, itemId := 10, borrowDate := 80,
                     dueDate := 87, returnDate := some 90, fineAmount := some 3 }],
    events := [], eventMembers := [], nextBorrowingId := 6 }

/-- An event at full capacity (max 2, current 2), as in the spec scenario. -/
def dbFullEvent : DB :=
  { members := [{ memberId := 1, status := "Active" }], fines := [], items := [],
    borrowings := [],
    events := [{ eventId := 3, name := "Gala", day := 200, maxCapacity := 2,
                 currentAttendees := 2 }],
    eventMembers := [], nextBorrowingId := 1 }

def dbEv : DB :=
  { members := [{ memberId := 1, status := "Active" }, { memberId := 2, status := "Active" }],
    fines := [], items := [], borrowings := [],
    events := [{ eventId := 3, name := "Gala", day := 200, maxCapacity := 10,
                 currentAttendees := 1 }],
    eventMembers := [{ eventId := 3, memberId := 1, regDate := 90 }],
    nextBorrowingId := 1 }

/-- One member with a positive fine balance of 5. -/
def dbFine : DB :=
  { members := [{ memberId := 1, status := "Active" }],
    fines := [{ memberId := 1, totalFine := 5 }],
    items := [], borrowings := [], events := [], eventMembers := [], nextBorrowingId := 1 }

/-! ## Helper lemmas -/

theorem find?_map_pres {α : Type} (p : α → Bool) (f : α → α) (l : List α)
    (hp : ∀ x, p (f x) = p x) : (l.map f).find? p = (l.find? p).map f := by
  induction l with
  | nil => rfl
  | cons a t ih =>
    simp only [List.map_cons, List.find?_cons, hp a]
    cases p a with
    | true => rfl
    | false => exact ih

theorem eventId_unique {l : List EventRow}
    (h : l.Pairwise (fun a b => a.eventId ≠ b.eventId)) :
    ∀ {x y : EventRow}, x ∈ l → y ∈ l → x.eventId = y.eventId → x = y := by
  induction l with
  | nil => intro x y hx _ _; exact absurd hx (List.not_mem_nil x)
  | cons a t ih =>
    intro x y hx hy hid
    rcases List.pairwise_cons.mp h with ⟨ha, ht⟩
    rcases List.mem_cons.mp hx with rfl | hx' <;> rcases List.mem_cons.mp hy with rfl | hy'
    · rfl
    · exact absurd hid (ha y hy')
    · exact absurd hid.symm (ha x hx')
    · exact ih ht hx' hy' hid

theorem dtLtb_eq_true_iff (a b : DateTime) :
    dtLtb a b = true ↔ (a.day < b.day ∨ (a.day = b.day ∧ a.tod < b.tod)) := by
  simp [dtLtb]

/-! ## C1: the second borrow of an already-borrowed item -/

/-- C1: refuted on the code.  From a state with two Active members, no
fines and an Available, non-reference item, the first BorrowItem
succeeds, a second BorrowItem of the same item by another member also
succeeds (the source tests the never-written Item.BorrowingStatus flag),
and two open Borrowing rows for the item then coexist. -/
theorem C1_second_borrow_succeeds :
    (borrow_item dbTwoMembers { day := 100, tod := 0 } 1 10).1 = Outcome.ok ∧
    (borrow_item (borrow_item dbTwoMembers { day := 100, tod := 0 } 1 10).2
        { day := 100, tod := 0 } 2 10).1 = Outcome.ok ∧
    openBorrowings (borrow_item (borrow_item dbTwoMembers { day := 100, tod := 0 } 1 10).2
        { day := 100, tod := 0 } 2 10).2 10 = 2 := by decide

/-! ## C3: ReturnItem on an unknown or already-returned borrowing id -/

/-- C3: when every Borrowing row carrying the requested id already has a
non-null return date (which covers an id with no row at all), ReturnItem
reports an input error and returns the state unchanged, so in particular
every Fine and Borrowing row is exactly as before. -/
theorem C3_return_unknown_or_closed (db : DB) (now : DateTime) (bid : Nat)
    (h : ∀ b ∈ db.borrowings, b.borrowingId = bid → b.returnDate ≠ none) :
    return_item db now bid
      = (Outcome.inputError "Borrowing ID not found or item already returned", db) := by
  unfold return_item
  have hf : db.borrowings.filter
      (fun b => b.borrowingId == bid && b.returnDate == none) = [] := by
    rw [List.filter_eq_nil_iff]
    intro b hb
    simp only [Bool.and_eq_true, beq_iff_eq, not_and]
    intro h1 h2
    exact h b hb h1 h2
  rw [hf]
  simp

theorem C3_witness :
    return_item dbClosedBorrow { day := 100, tod := 0 } 5
      = (Outcome.inputError "Borrowing ID not found or item already returned", dbClosedBorrow) :=
  C3_return_unknown_or_closed dbClosedBorrow { day := 100, tod := 0 } 5 (by decide)

/-! ## C9: neither BorrowItem nor ReturnItem writes the Item table -/

/-- C9: for every state, time and argument, both borrow_item and
return_item leave every row of the Item table (in particular its
BorrowingStatus flag) unchanged, on success and on failure alike. -/
theorem C9_item_table_frame (db : DB) (now : DateTime) (m i bid : Nat) :
    (borrow_item db now m i).2.items = db.items ∧
    (return_item db now bid).2.items = db.items := by
  constructor
  · unfold borrow_item
    repeat' split
    all_goals rfl
  · simp only [return_item]
    repeat' split
    all_goals rfl

/-! ## C10: ReturnItem on a borrowing created by BorrowItem -/

/-- C10: refuted on the code.  borrow_item stores the new Borrowing with
a NULL FineAmount, and the subsequent return_item on that borrowing id
hits the Python comparison of None with 0: the operation faults (it does
not complete with a result) and the transaction rolls back, leaving even
the ReturnDate unset. -/
theorem C10_return_faults_on_null_fine :
    ((borrow_item dbTwoMembers { day := 100, tod := 0 } 1 10).2.borrowings.find?
        (fun b => b.borrowingId == 7)).map (fun b => b.fineAmount) = some none ∧
    return_item (borrow_item dbTwoMembers { day := 100, tod := 0 } 1 10).2
        { day := 103, tod := 0 } 7
      = (Outcome.fault "TypeError: comparison of NoneType and int",
         (borrow_item dbTwoMembers { day := 100, tod := 0 } 1 10).2) := by decide

/-! ## C2: the BorrowItem failure conditions and their precedence -/

/-- C2 counterexample: the claimed sixth failure condition reads
"item already has an open Borrowing", but in a state where item 10 has
an open Borrowing row while its stored BorrowingStatus flag still says
Available, borrow_item succeeds instead of failing. -/
theorem C2_counterexample :
    itemHasOpenBorrowing dbFlagDrift 10 = true ∧
    (borrow_item dbFlagDrift { day := 100, tod := 0 } 1 10).1 = Outcome.ok := by decide

/-- C2 amended: borrow_item fails with an input error exactly when one
of these holds — member unknown, member not Active, member Fine > 0,
item unknown, item reference-only, item BorrowingStatus flag equal to
Borrowed (the flag, not the presence of an open Borrowing row) — the
first applicable condition in this order is the one reported, and on
every failure the state (so in particular the Borrowing table) is
returned unchanged. -/
theorem C2_borrow_error_conditions (db : DB) (now : DateTime) (m i : Nat) :
    ((∃ msg, (borrow_item db now m i).1 = Outcome.inputError msg) ↔
      (memberUnknown db m || memberInactive db m || hasBlockingFine db m ||
       itemUnknown db i || itemReferenceOnly db i || itemFlagBorrowed db i) = true) ∧
    (memberUnknown db m = true →
      (borrow_item db now m i).1 = Outcome.inputError "Member not found") ∧
    (memberUnknown db m = false → memberInactive db m = true →
      (borrow_item db now m i).1
        = Outcome.inputError "Member is inactive and cannot borrow items") ∧
    (memberUnknown db m = false → memberInactive db m = false → hasBlockingFine db m = true →
      (borrow_item db now m i).1
        = Outcome.inputError
            "Member has an outstanding fine and cannot borrow items until it is paid") ∧
    (memberUnknown db m = false → memberInactive db m = false → hasBlockingFine db m = false →
      itemUnknown db i = true →
      (borrow_item db now m i).1 = Outcome.inputError "Item not found") ∧
    (memberUnknown db m = false → memberInactive db m = false → hasBlockingFine db m = false →
      itemUnknown db i = false → itemReferenceOnly db i = true →
      (borrow_item db now m i).1
        = Outcome.inputError "Item is reference-only and cannot be borrowed") ∧
    (memberUnknown db m = false → memberInactive db m = false → hasBlockingFine db m = false →
      itemUnknown db i = false → itemReferenceOnly db i = false → itemFlagBorrowed db i = true →
      (borrow_item db now m i).1
        = Outcome.inputError "Item is already borrowed by another member") ∧
    ((borrow_item db now m i).1 ≠ Outcome.ok → (borrow_item db now m i).2 = db) := by
  unfold borrow_item
  cases hm : findMember db m with
  | none =>
    simp [memberUnknown, memberInactive, hm]
  | some mem =>
    by_cases hact : mem.status = "Active"
    · cases hbf : hasBlockingFine db m with
      | true =>
        simp [memberUnknown, memberInactive, hm, hact, hbf]
      | false =>
        cases hi : findItem db i with
        | none =>
          simp [memberUnknown, memberInactive, itemUnknown, itemReferenceOnly,
                itemFlagBorrowed, hm, hact, hbf, hi]
        | some it =>
          by_cases href : it.referenceOnly
          · simp [memberUnknown, memberInactive, itemUnknown, itemReferenceOnly,
                  itemFlagBorrowed, hm, hact, hbf, hi, href]
          · by_cases hflag : it.borrowingStatus = "Borrowed"
            · simp [memberUnknown, memberInactive, itemUnknown, itemReferenceOnly,
                    itemFlagBorrowed, hm, hact, hbf, hi, href, hflag]
            · simp [memberUnknown, memberInactive, itemUnknown, itemReferenceOnly,
                    itemFlagBorrowed, hm, hact, hbf, hi, href, hflag]
    · simp [memberUnknown, memberInactive, hm, hact]

theorem C2_witness :
    (borrow_item dbFine { day := 100, tod := 0 } 1 10).1
      = Outcome.inputError
          "Member has an outstanding fine and cannot borrow items until it is paid" :=
  (C2_borrow_error_conditions dbFine { day := 100, tod := 0 } 1 10).2.2.2.1
    (by decide) (by decide) (by decide)

/-! ## Event helpers -/

theorem register_event_cases (db : DB) (now : DateTime) (m e : Nat) :
    (∃ msg, register_event db now m e = (Outcome.inputError msg, db)) ∨
    (∃ ev, findEvent db e = some ev ∧ ev.currentAttendees < ev.maxCapacity ∧
      dtLtb { day := ev.day, tod := 0 } now = false ∧
      isRegistered db e m = false ∧
      register_event db now m e
        = (Outcome.ok,
           { db with
               eventMembers := db.eventMembers ++
                 [{ eventId := e, memberId := m, regDate := now.day }],
               events := db.events.map (fun x =>
                 if x.eventId == e then
                   { x with currentAttendees := x.currentAttendees + 1 } else x) })) := by
  unfold register_event
  split
  · exact Or.inl ⟨_, rfl⟩
  next ev hfe =>
    split
    next => exact Or.inl ⟨_, rfl⟩
    next hcap =>
      split
      next => exact Or.inl ⟨_, rfl⟩
      next hdt =>
        split
        · exact Or.inl ⟨_, rfl⟩
        next mem hmem =>
          split
          next => exact Or.inl ⟨_, rfl⟩
          next =>
            split
            next => exact Or.inl ⟨_, rfl⟩
            next hreg =>
              exact Or.inr ⟨ev, hfe, lt_of_not_le hcap,
                by simpa using hdt, by simpa using hreg, rfl⟩

theorem register_event_success (db : DB) (now : DateTime) (m e : Nat) (ev : EventRow)
    (mem : MemberRow) (hfe : findEvent db e = some ev)
    (hcap : ev.currentAttendees < ev.maxCapacity)
    (hdt : dtLtb { day := ev.day, tod := 0 } now = false)
    (hmem : findMember db m = some mem) (hact : mem.status = "Active")
    (hreg : isRegistered db e m = false) :
    register_event db now m e
      = (Outcome.ok,
         { db with
             eventMembers := db.eventMembers ++
               [{ eventId := e, memberId := m, regDate := now.day }],
             events := db.events.map (fun x =>
               if x.eventId == e then
                 { x with currentAttendees := x.currentAttendees + 1 } else x) }) := by
  simp [register_event, hfe, hdt, hreg, hmem, hact, not_le.mpr hcap]

theorem cancel_event_success (db : DB) (now : DateTime) (m e : Nat) (ev : EventRow)
    (hfe : findEvent db e = some ev)
    (hdt : dtLtb { day := ev.day, tod := 0 } now = false)
    (hreg : isRegistered db e m = true) :
    cancel_event_registration db now m e
      = (Outcome.ok,
         { db with
             eventMembers := db.eventMembers.filter
               (fun r => !(r.eventId == e && r.memberId == m)),
             events := db.events.map (fun x =>
               if x.eventId == e then
                 { x with currentAttendees := x.currentAttendees - 1 } else x) }) := by
  have hlt : (db.eventMembers.filter
      (fun r => !(r.eventId == e && r.memberId == m))).length < db.eventMembers.length := by
    rw [List.length_filter_lt_length_iff_exists]
    rcases List.any_eq_true.mp hreg with ⟨r, hr, hpr⟩
    exact ⟨r, hr, by simp [hpr]⟩
  have hlt' : (db.eventMembers.filter
      (fun r => (!(r.eventId == e) || !(r.memberId == m)))).length
        < db.eventMembers.length := by
    simpa [Bool.not_and] using hlt
  simp [cancel_event_registration, hfe, hdt, hreg, hlt, hlt']

theorem register_preserves (db : DB) (now : DateTime) (m e : Nat)
    (hn : eventIdsNodup db) (hc : eventsCapOk db) :
    eventIdsNodup (register_event db now m e).2 ∧ eventsCapOk (register_event db now m e).2 := by
  rcases register_event_cases db now m e with ⟨msg, hcase⟩ | ⟨ev, hfe, hcap, hdt, hreg, hcase⟩
  · rw [hcase]; exact ⟨hn, hc⟩
  · rw [hcase]
    refine ⟨?_, ?_⟩
    · unfold eventIdsNodup at hn ⊢
      refine List.Pairwise.map _ ?_ hn
      intro a b hab
      by_cases ha : (a.eventId == e) = true <;> by_cases hb : (b.eventId == e) = true <;>
        simp [ha, hb, hab]
    · intro x hx
      simp only [List.mem_map] at hx
      obtain ⟨y, hy, rfl⟩ := hx
      have hfe' : db.events.find? (fun r => r.eventId == e) = some ev := hfe
      have hev_mem : ev ∈ db.events := List.mem_of_find?_eq_some hfe'
      have heid : (ev.eventId == e) = true := by
        have h2 := List.find?_some hfe'
        simpa using h2
      by_cases hye : (y.eventId == e) = true
      · have hyev : y = ev := eventId_unique hn hy hev_mem
          (by rw [beq_iff_eq] at hye heid; rw [hye, heid])
        subst hyev
        simp only [hye, if_true]
        omega
      · simp only [hye, Bool.false_eq_true, if_false]
        exact hc y hy

theorem runRegistrations_capOk (ops : List (DateTime × Nat × Nat)) :
    ∀ db : DB, eventIdsNodup db → eventsCapOk db → eventsCapOk (runRegistrations db ops) := by
  induction ops with
  | nil => intro db _ hc; exact hc
  | cons op rest ih =>
    intro db hn hc
    obtain ⟨now, m, e⟩ := op
    have h := register_preserves db now m e hn hc
    exact ih _ h.1 h.2

/-! ## C4: RegisterForEvent count and duplicate properties -/

/-- C4: (i) a successful register_event raises the attendee
count by exactly 1 and appends exactly one Event_Member row; (ii) from
any state with distinct event ids where every event is within capacity,
the count never exceeds max_capacity after any sequence of
registrations; (iii) with the event at or over capacity the call fails
with an input error and leaves the state unchanged; (iv) after a
successful registration, a second register_event by the same member for
the same event fails with an input error. -/
theorem C4_register_event_properties :
    (∀ (db : DB) (now : DateTime) (m e : Nat),
      (register_event db now m e).1 = Outcome.ok →
      ∃ ev, findEvent db e = some ev ∧
        attendeesOf (register_event db now m e).2 e = some (ev.currentAttendees + 1) ∧
        (register_event db now m e).2.eventMembers
          = db.eventMembers ++ [{ eventId := e, memberId := m, regDate := now.day }]) ∧
    (∀ db : DB, eventIdsNodup db → eventsCapOk db →
      ∀ ops, eventsCapOk (runRegistrations db ops)) ∧
    (∀ (db : DB) (now : DateTime) (m e : Nat) (ev : EventRow),
      findEvent db e = some ev → ev.maxCapacity ≤ ev.currentAttendees →
      register_event db now m e = (Outcome.inputError "Event is already at full capacity", db)) ∧
    (∀ (db : DB) (now now2 : DateTime) (m e : Nat),
      (register_event db now m e).1 = Outcome.ok →
      ∃ msg, (register_event (register_event db now m e).2 now2 m e).1
        = Outcome.inputError msg) := by
  refine ⟨?_, ?_, ?_, ?_⟩
  · intro db now m e hok
    rcases register_event_cases db now m e with ⟨msg, hcase⟩ | ⟨ev, hfe, hcap, hdt, hreg, hcase⟩
    · rw [hcase] at hok; exact absurd hok (by simp)
    · refine ⟨ev, hfe, ?_, by rw [hcase]⟩
      rw [hcase]
      have hfe' : db.events.find? (fun r => r.eventId == e) = some ev := hfe
      have heid : (ev.eventId == e) = true := by
        have h2 := List.find?_some hfe'
        simpa using h2
      show ((db.events.map (fun x =>
        if x.eventId == e then
          { x with currentAttendees := x.currentAttendees + 1 } else x)).find?
          (fun r => r.eventId == e)).map (fun r => r.currentAttendees) = _
      rw [find?_map_pres]
      · rw [hfe']
        have heq : ev.eventId = e := by simpa using heid
        simp [heq]
      · intro x
        by_cases hx : (x.eventId == e) = true <;> simp [hx]
  · intro db hn hc ops
    exact runRegistrations_capOk ops db hn hc
  · intro db now m e ev hfe hcap
    unfold register_event
    rw [hfe]
    simp only [if_pos hcap]
  · intro db now now2 m e hok
    rcases register_event_cases db now m e with ⟨msg, hcase⟩ | ⟨ev, hfe, hcap, hdt, hreg, hcase⟩
    · rw [hcase] at hok; exact absurd hok (by simp)
    · rcases register_event_cases (register_event db now m e).2 now2 m e with
        ⟨msg, hcase2⟩ | ⟨ev2, hfe2, hcap2, hdt2, hreg2, hcase2⟩
      · exact ⟨msg, by rw [hcase2]⟩
      · exfalso
        rw [hcase] at hreg2
        simp [isRegistered] at hreg2

/-- C4 witness at the spec scenario: event 3 with max_capacity 2 and
current_attendees 2 rejects a registration and the count stays 2. -/
theorem C4_witness :
    register_event dbFullEvent { day := 150, tod := 0 } 1 3
      = (Outcome.inputError "Event is already at full capacity", dbFullEvent) :=
  C4_register_event_properties.2.2.1 dbFullEvent { day := 150, tod := 0 } 1 3
    { eventId := 3, name := "Gala", day := 200, maxCapacity := 2, currentAttendees := 2 }
    (by decide) (by decide)

/-! ## C5: CancelRegistration -/

/-- C5 counterexample: member 1 is registered for existing event 3 dated
day 200, today is day 200 (so the event is not in the past), yet one
second after midnight cancel_event_registration rejects it as already
occurred and changes nothing. -/
theorem C5_counterexample :
    findEvent dbEv 3 = some { eventId := 3, name := "Gala", day := 200,
                              maxCapacity := 10, currentAttendees := 1 } ∧
    isRegistered dbEv 3 1 = true ∧
    ({ day := 200, tod := 1 } : DateTime).day ≤ 200 ∧
    cancel_event_registration dbEv { day := 200, tod := 1 } 1 3
      = (Outcome.inputError
          "Cannot cancel registration for event as it has already occurred", dbEv) := by decide

/-- C5 amended: for a member registered for an existing event whose
date check passes (midnight of the event date is not before the current
datetime, i.e. the date is strictly after today, or equal to today at
exactly midnight — not merely "non-past"), cancel_event_registration
succeeds, removes the Event_Member row of that member and decrements the
attendee count by exactly 1 in the same returned state; for an event
dated strictly before today it fails with an input error and returns
the state unchanged. -/
theorem C5_cancel_registration (db : DB) (now : DateTime) (m e : Nat) (ev : EventRow)
    (hfe : findEvent db e = some ev) :
    (dtLtb { day := ev.day, tod := 0 } now = false → isRegistered db e m = true →
      (cancel_event_registration db now m e).1 = Outcome.ok ∧
      attendeesOf (cancel_event_registration db now m e).2 e
        = some (ev.currentAttendees - 1) ∧
      (cancel_event_registration db now m e).2.eventMembers
        = db.eventMembers.filter (fun r => !(r.eventId == e && r.memberId == m))) ∧
    (ev.day < now.day →
      cancel_event_registration db now m e
        = (Outcome.inputError
            "Cannot cancel registration for event as it has already occurred", db)) := by
  constructor
  · intro hdt hreg
    rw [cancel_event_success db now m e ev hfe hdt hreg]
    refine ⟨rfl, ?_, rfl⟩
    have hfe' : db.events.find? (fun r => r.eventId == e) = some ev := hfe
    have heid : (ev.eventId == e) = true := by
      have h2 := List.find?_some hfe'
      simpa using h2
    show ((db.events.map (fun x =>
      if x.eventId == e then
        { x with currentAttendees := x.currentAttendees - 1 } else x)).find?
        (fun r => r.eventId == e)).map (fun r => r.currentAttendees) = _
    rw [find?_map_pres]
    · rw [hfe']
      have heq : ev.eventId = e := by simpa using heid
      simp [heq]
    · intro x
      by_cases hx : (x.eventId == e) = true <;> simp [hx]
  · intro hpast
    have hdt : dtLtb { day := ev.day, tod := 0 } now = true := by
      simp [dtLtb, hpast]
    unfold cancel_event_registration
    rw [hfe]
    simp [hdt]

theorem C5_witness :
    (cancel_event_registration dbEv { day := 200, tod := 0 } 1 3).1 = Outcome.ok ∧
    attendeesOf (cancel_event_registration dbEv { day := 200, tod := 0 } 1 3).2 3 = some 0 ∧
    (cancel_event_registration dbEv { day := 200, tod := 0 } 1 3).2.eventMembers
      = dbEv.eventMembers.filter (fun r => !(r.eventId == 3 && r.memberId == 1)) :=
  (C5_cancel_registration dbEv { day := 200, tod := 0 } 1 3
      { eventId := 3, name := "Gala", day := 200, maxCapacity := 10, currentAttendees := 1 }
      (by decide)).1 (by decide) (by decide)

/-! ## C6: the event-date precondition -/

/-- C6 counterexample: event 3 is dated day 200 and the current datetime
is day 200 one second after midnight — the event date equals today —
yet both register_event (for unregistered member 2, capacity free) and
cancel_event_registration (for registered member 1) reject the
operation as already occurred. -/
theorem C6_counterexample :
    ({ day := 200, tod := 1 } : DateTime).day = 200 ∧
    findEvent dbEv 3 = some { eventId := 3, name := "Gala", day := 200,
                              maxCapacity := 10, currentAttendees := 1 } ∧
    (register_event dbEv { day := 200, tod := 1 } 2 3).1
      = Outcome.inputError "Cannot register for event as it has already occurred" ∧
    (cancel_event_registration dbEv { day := 200, tod := 1 } 1 3).1
      = Outcome.inputError
          "Cannot cancel registration for event as it has already occurred" := by decide

/-- C6 amended: for an existing event, the already-occurred rejection of
register_event (when the capacity check passes) and of
cancel_event_registration happens exactly when midnight of the event
date is before the current datetime — that is, when the event date is
before today, or equals today and the current time is past midnight.
An event dated today therefore passes the date check only at exactly
midnight, not regardless of the time of day. -/
theorem C6_date_check (db : DB) (now : DateTime) (m e : Nat) (ev : EventRow)
    (hfe : findEvent db e = some ev) :
    (ev.currentAttendees < ev.maxCapacity →
      ((register_event db now m e).1
          = Outcome.inputError "Cannot register for event as it has already occurred"
        ↔ (ev.day < now.day ∨ (ev.day = now.day ∧ 0 < now.tod)))) ∧
    ((cancel_event_registration db now m e).1
        = Outcome.inputError "Cannot cancel registration for event as it has already occurred"
      ↔ (ev.day < now.day ∨ (ev.day = now.day ∧ 0 < now.tod))) := by
  constructor
  · intro hcap
    cases hdt : dtLtb { day := ev.day, tod := 0 } now with
    | true =>
      have hres : (register_event db now m e).1
          = Outcome.inputError "Cannot register for event as it has already occurred" := by
        unfold register_event
        rw [hfe]
        simp [not_le.mpr hcap, hdt]
      exact iff_of_true hres ((dtLtb_eq_true_iff { day := ev.day, tod := 0 } now).mp hdt)
    | false =>
      refine iff_of_false ?_ ?_
      · intro hres
        simp only [register_event, hfe, hdt, Bool.false_eq_true, if_false,
          if_neg (not_le.mpr hcap)] at hres
        split at hres
        · simp at hres
        · split at hres
          · simp at hres
          · split at hres
            · simp at hres
            · simp at hres
      · intro hcond
        have := (dtLtb_eq_true_iff { day := ev.day, tod := 0 } now).mpr hcond
        rw [this] at hdt
        cases hdt
  · cases hdt : dtLtb { day := ev.day, tod := 0 } now with
    | true =>
      have hres : (cancel_event_registration db now m e).1
          = Outcome.inputError
              "Cannot cancel registration for event as it has already occurred" := by
        unfold cancel_event_registration
        rw [hfe]
        simp [hdt]
      exact iff_of_true hres ((dtLtb_eq_true_iff { day := ev.day, tod := 0 } now).mp hdt)
    | false =>
      refine iff_of_false ?_ ?_
      · intro hres
        simp only [cancel_event_registration, hfe, hdt, Bool.false_eq_true, if_false] at hres
        split at hres
        · simp at hres
        · split at hres
          · simp at hres
          · simp at hres
      · intro hcond
        have := (dtLtb_eq_true_iff { day := ev.day, tod := 0 } now).mpr hcond
        rw [this] at hdt
        cases hdt

theorem C6_witness :
    (register_event dbEv { day := 201, tod := 3600 } 2 3).1
      = Outcome.inputError "Cannot register for event as it has already occurred" ∧
    (cancel_event_registration dbEv { day := 201, tod := 3600 } 1 3).1
      = Outcome.inputError
          "Cannot cancel registration for event as it has already occurred" :=
  ⟨((C6_date_check dbEv { day := 201, tod := 3600 } 2 3
      { eventId := 3, name := "Gala", day := 200, maxCapacity := 10, currentAttendees := 1 }
      (by decide)).1 (by decide)).mpr (Or.inl (by decide)),
   ((C6_date_check dbEv { day := 201, tod := 3600 } 1 3
      { eventId := 3, name := "Gala", day := 200, maxCapacity := 10, currentAttendees := 1 }
      (by decide)).2).mpr (Or.inl (by decide))⟩

/-! ## C7: PayFine -/

/-- C7: with the confirmation resolved to yes and an admin code that
passes the bcrypt check, pay_fine on a Fine row with positive balance b
sets the balance of that member to exactly 0 (all other rows untouched) and
reports b as the amount paid; with no Fine row, or a balance of at most
0, it is a no-op success reporting no amount paid and returns the state
unchanged. -/
theorem C7_pay_fine_authorized (db : DB) (m : Nat) :
    (∀ f : FineRow, findFine db m = some f → 0 < f.totalFine →
      pay_fine db m true (AdminCodeInput.code true)
        = (PayResult.paid f.totalFine,
           { db with fines := db.fines.map (fun fr =>
               if fr.memberId == m then { fr with totalFine := 0 } else fr) })) ∧
    (findFine db m = none →
      pay_fine db m true (AdminCodeInput.code true) = (PayResult.noFines, db)) ∧
    (∀ f : FineRow, findFine db m = some f → f.totalFine ≤ 0 →
      pay_fine db m true (AdminCodeInput.code true) = (PayResult.noFines, db)) := by
  refine ⟨?_, ?_, ?_⟩
  · intro f hf hpos
    unfold pay_fine
    rw [hf]
    simp [not_le.mpr hpos]
  · intro hf
    unfold pay_fine
    rw [hf]
  · intro f hf hle
    unfold pay_fine
    rw [hf]
    simp [hle]

theorem C7_witness :
    pay_fine dbFine 1 true (AdminCodeInput.code true)
      = (PayResult.paid 5,
         { dbFine with fines := dbFine.fines.map (fun fr =>
             if fr.memberId == 1 then { fr with totalFine := 0 } else fr) }) :=
  (C7_pay_fine_authorized dbFine 1).1 { memberId := 1, totalFine := 5 }
    (by decide) (by decide)

/-! ## C8: admin_login -/

theorem adminLoginLoop_true_mem (n : Nat) :
    ∀ l : List AdminInput, adminLoginLoop n l = some true →
      ∃ k, k < n ∧ l.get? k = some (AdminInput.candidate true) := by
  induction n with
  | zero => intro l h; simp [adminLoginLoop] at h
  | succ n ih =>
    intro l h
    rcases l with _ | ⟨a, rest⟩
    · simp [adminLoginLoop] at h
    · cases a with
      | cancel => simp [adminLoginLoop] at h
      | candidate c =>
        cases c with
        | true => exact ⟨0, Nat.succ_pos n, rfl⟩
        | false =>
          simp [adminLoginLoop] at h
          obtain ⟨k, hk, hg⟩ := ih rest h
          exact ⟨k + 1, Nat.succ_lt_succ hk, by simpa using hg⟩

/-- C8: (i) when fewer than 3 attempts have been consumed by wrong
candidates, a cancel signal makes admin_login return false at once, and
the result does not depend on anything after the cancel (no further
attempt is consumed); (ii) three wrong candidates in a row yield false
regardless of what follows (fails closed); (iii) admin_login returns
true only when one of the first 3 presented inputs is a candidate that
matches the reference hash. -/
theorem C8_admin_login_properties :
    (∀ (pre rest : List AdminInput), pre.length < 3 →
      (∀ x ∈ pre, x = AdminInput.candidate false) →
      admin_login (pre ++ AdminInput.cancel :: rest) = some false ∧
      admin_login (pre ++ AdminInput.cancel :: rest)
        = admin_login (pre ++ [AdminInput.cancel])) ∧
    (∀ rest : List AdminInput,
      admin_login (AdminInput.candidate false :: AdminInput.candidate false ::
        AdminInput.candidate false :: rest) = some false) ∧
    (∀ inputs : List AdminInput, admin_login inputs = some true →
      ∃ k, k < 3 ∧ inputs.get? k = some (AdminInput.candidate true)) := by
  refine ⟨?_, ?_, ?_⟩
  · intro pre rest hlen hwrong
    rcases pre with _ | ⟨a, pre1⟩
    · exact ⟨rfl, rfl⟩
    · have ha : a = AdminInput.candidate false := hwrong a (by simp)
      subst ha
      rcases pre1 with _ | ⟨b, pre2⟩
      · constructor <;> simp [admin_login, adminLoginLoop]
      · have hb : b = AdminInput.candidate false := hwrong b (by simp)
        subst hb
        rcases pre2 with _ | ⟨c, pre3⟩
        · constructor <;> simp [admin_login, adminLoginLoop]
        · simp at hlen
          omega
  · intro rest
    simp [admin_login, adminLoginLoop]
  · intro inputs h
    exact adminLoginLoop_true_mem 3 inputs h

theorem C8_witness :
    admin_login [AdminInput.candidate false, AdminInput.cancel, AdminInput.candidate true]
      = some false :=
  (C8_admin_login_properties.1 [AdminInput.candidate false] [AdminInput.candidate true]
    (by decide) (by decide)).1
